import Mathlib

/-!
Shallow embedding of the vehicle-valuation engine of the `vinaudit-backend`
repository (files `app/services/vehicle_service.py`,
`app/services/regression_service.py`, `app/repositories/vehicle_repository.py`).

Conventions of the embedding:
* Python `float`/`Decimal` prices are modelled as `ℚ` (exact arithmetic).
* Python `None` is modelled with `Option`; Python truthiness of optional
  values is made explicit (`truthyStr`, `truthyInt`, `truthyQ`).
* `datetime.now().year` is passed in as an explicit `currentYear` argument.
* The sklearn collaborators (`StandardScaler`, `LinearRegression`) are an
  external library, not repository code; they are abstracted by a
  `FitOracle` parameter.  No theorem below depends on the numeric output
  of a fit, only on the control flow around it, which is repository code.
* The `calculation_date` timestamp (wall clock) and the `cache.set` side
  effect are omitted from the result value; they influence no field that
  the development reasons about.
-/

namespace VinAudit

/-- Python truthiness of an optional string (`None` and `""` are falsy). -/
def truthyStr : Option String → Bool
  | none => false
  | some s => !(s == "")

/-- Python truthiness of an optional integer (`None` and `0` are falsy). -/
def truthyInt : Option Int → Bool
  | none => false
  | some n => !(n == 0)

/-- Python truthiness of an optional rational (`None` and `0` are falsy). -/
def truthyQ : Option ℚ → Bool
  | none => false
  | some q => !(q == 0)

/-- Helper `charsContain needle hay`: does `hay` contain `needle` as a contiguous
sublist?  This is Python's `needle in hay` on strings, spelled out on the
character lists. -/
def charsContain (needle : List Char) : List Char → Bool
  | [] => needle.isEmpty
  | c :: rest => List.isPrefixOf needle (c :: rest) || charsContain needle rest

/-- Python's substring test `needle in hay`. -/
def strContains (hay needle : String) : Bool :=
  charsContain needle.toList hay.toList

/-- Python `str.lower` on ASCII data, character by character. -/
def strLower (s : String) : String := String.mk (s.toList.map Char.toLower)

/-- Python `str.upper` on ASCII data, character by character. -/
def strUpper (s : String) : String := String.mk (s.toList.map Char.toUpper)

/-! ### Feature encoders (`app/services/regression_service.py`) -/

/-- Premium trim keywords of `RegressionService._trim_to_numeric`. -/
def premium_trims_enc : List String :=
  ["limited", "platinum", "sport", "titanium", "premium"]

/-- Budget trim keywords (shared by the encoder and the trim adjuster). -/
def budget_trims : List String := ["base", "s", "lx", "le"]

/-- Source `RegressionService._trim_to_numeric`: `if not trim: return 0`, lower-case,
then substring match against the premium list (→ 2), the budget list (→ 0),
else 1. -/
def trim_to_numeric (trim : Option String) : ℚ :=
  if !(truthyStr trim) then 0
  else
    let t := strLower (trim.getD "")
    if premium_trims_enc.any (fun p => strContains t p) then 2
    else if budget_trims.any (fun b => strContains t b) then 0
    else 1

/-- The premium colour list (shared by encoder and colour adjuster). -/
def premium_colors : List String := ["black", "white", "silver", "gray"]

/-- Source `RegressionService._is_premium_color`: exact (lower-cased) membership. -/
def is_premium_color (color : Option String) : ℚ :=
  if !(truthyStr color) then 0
  else if premium_colors.contains (strLower (color.getD "")) then 1 else 0

/-- Source `RegressionService._is_high_cost_state`: exact (upper-cased) membership
in `["CA", "NY", "WA"]`. -/
def is_high_cost_state (state : Option String) : ℚ :=
  if !(truthyStr state) then 0
  else if (["CA", "NY", "WA"] : List String).contains (strUpper (state.getD "")) then 1 else 0

/-! ### Heuristic adjusters (`VehicleService._adjust_for_*`) -/

/-- The `adjustment` computed by `_adjust_for_mileage` from
`mileage_diff = mileage − expected_miles`. -/
def mileage_adjustment (mileage_diff : ℚ) : ℚ :=
  if 0 < mileage_diff then
    mileage_diff * (15 / 100 + mileage_diff / 100000 * (5 / 100))
  else
    mileage_diff * (8 / 100)

/-- Source `VehicleService._adjust_for_mileage`, with
`expected_miles = (currentYear − year) × 12000` inlined.
(`base_depreciation = 0.10` is assigned but never used in the source and is
dropped here.)  The wall-clock `datetime.now().year` is the explicit
argument `currentYear`. -/
def _adjust_for_mileage (currentYear : Int) (base_price : ℚ) (mileage : Int)
    (year : Int) : ℚ :=
  max (base_price
        - mileage_adjustment ((mileage - (currentYear - year) * 12000 : Int) : ℚ))
      (base_price * (3 / 10))

/-- Premium trim keywords of `VehicleService._adjust_for_trim` (two more
entries than the encoder's list). -/
def premium_trims_adj : List String :=
  ["limited", "platinum", "sport", "titanium", "premium", "xlt", "lariat"]

/-- Source `VehicleService._adjust_for_trim`: lower-case, substring match; premium
first (×1.10), then budget (×0.95), else unchanged. -/
def _adjust_for_trim (price : ℚ) (trim : String) : ℚ :=
  let t := strLower trim
  if premium_trims_adj.any (fun k => strContains t k) then price * (11 / 10)
  else if budget_trims.any (fun k => strContains t k) then price * (19 / 20)
  else price

/-- Source `VehicleService._adjust_for_body_color`: lower-case exact match. -/
def _adjust_for_body_color (price : ℚ) (body_color : String) : ℚ :=
  let c := strLower body_color
  if premium_colors.contains c then price * (108 / 100)
  else if (["wind chill pearl", "ice cap", "red"] : List String).contains c then
    price * (97 / 100)
  else price

/-- Source `VehicleService._adjust_for_state`: upper-case exact match against the
two multiplier tables. -/
def _adjust_for_state (price : ℚ) (state : String) : ℚ :=
  let s := strUpper state
  if s == "CA" then price * (120 / 100)
  else if s == "NY" then price * (108 / 100)
  else if s == "WA" then price * (107 / 100)
  else if s == "TX" then price * (97 / 100)
  else if s == "OH" then price * (95 / 100)
  else if s == "MI" then price * (93 / 100)
  else price

/-! ### Price formatting (`VehicleService._format_price`) -/

/-- Python 3 `round` on an exact value: round half to even. -/
def pyRound (q : ℚ) : Int :=
  if q - ⌊q⌋ < 1 / 2 then ⌊q⌋
  else if 1 / 2 < q - ⌊q⌋ then ⌊q⌋ + 1
  else if 2 ∣ ⌊q⌋ then ⌊q⌋ else ⌊q⌋ + 1

/-- Python `round(x, 2)`, used only for display fields. -/
def pyRound2 (q : ℚ) : ℚ := (pyRound (q * 100) : ℚ) / 100

/-- Insert a `','` after every three characters of a reversed digit list;
together with the two reversals in `commaGrouped` this is the `,` flag of
Python's format spec. -/
def groupRev : List Char → List Char
  | a :: b :: c :: d :: rest => a :: b :: c :: ',' :: groupRev (d :: rest)
  | l => l

/-- Python `f"{n:,.0f}"` applied to an integer: sign, then the decimal
digits grouped in threes by commas. -/
def commaGrouped (n : Int) : String :=
  (if n < 0 then "-" else "")
    ++ String.mk ((groupRev (toString n.natAbs).toList.reverse).reverse)

/-- Source `VehicleService._format_price`: `None` → `"N/A"`, otherwise round
`price / 100` to an integer, scale back by 100 and render as
`f"${rounded:,.0f}"`. -/
def _format_price : Option ℚ → String
  | none => "N/A"
  | some price => "$" ++ commaGrouped (pyRound (price / 100) * 100)

/-! ### Confidence tiers -/

/-- Source `VehicleService._determine_confidence`. -/
def _determine_confidence (rmse_percentage : Option ℚ) : String :=
  match rmse_percentage with
  | none => "medium"
  | some p => if p < 5 then "high" else if p < 15 then "medium" else "low"

/-- Source `VehicleService._determine_fallback_confidence`. -/
def _determine_fallback_confidence (sample_size : Nat) (error_pct : Option ℚ) :
    String :=
  if sample_size == 0 then "low"
  else
    match error_pct with
    | none => if 5 ≤ sample_size then "medium" else "low"
    | some e =>
      if e < 10 ∧ 10 ≤ sample_size then "medium"
      else if e < 20 ∧ 5 ≤ sample_size then "medium"
      else "low"

/-! ### Data model and repository (`app/models/vehicle.py`,
`app/repositories/vehicle_repository.py`) -/

/-- The columns of the `vehicles` table that the valuation engine reads.
Display-only columns (vin, dealer identity, style, engine, …) pass through
`to_dict` unmodified and are omitted. -/
structure Vehicle where
  year : Int
  make : String
  model : String
  trim : Option String
  listing_price : Option ℚ
  listing_mileage : Option Int
  exterior_color : Option String
  dealer_state : Option String
deriving DecidableEq, Repr

/-- The filter dictionary handed to the repository.  The keys
`"listing_price"` and `"listing_mileage"` that some callers add are ignored
by the repository source (it only ever reads `trim`, `color`,
`dealer_state`, `mileage`) and are therefore not part of this structure. -/
structure Filters where
  year : Int
  make : String
  model : String
  trim : Option String
  color : Option String
  dealer_state : Option String
  mileage : Option Int
deriving DecidableEq, Repr

/-- The unconditional part of both repository queries: exact
year/make/model match and `listing_price.isnot(None)`. -/
def matchesBase (f : Filters) (v : Vehicle) : Bool :=
  v.year == f.year && v.make == f.make && v.model == f.model
    && v.listing_price.isSome

/-- The optional filter chain (`if filters.get("trim"): …` etc.), shared by
`get_listings_with_filters` and `get_average_price_with_filters`.  SQL
equality with a NULL column is not-true, hence `v.trim == f.trim` on
`Option`; `between` with a NULL mileage is likewise not-true.  The band
bounds are Python's `int(m * 0.8)` and `int(m * 1.2)`; for the nonnegative
mileages this development evaluates them at they equal `m * 4 / 5` and
`m * 6 / 5` on `Int`. -/
def applyOptFilters (f : Filters) (l : List Vehicle) : List Vehicle :=
  let q := if truthyStr f.trim then l.filter (fun v => v.trim == f.trim) else l
  let q := if truthyStr f.color then
      q.filter (fun v => v.exterior_color == f.color)
    else q
  let q := if truthyStr f.dealer_state then
      q.filter (fun v => v.dealer_state == f.dealer_state)
    else q
  if truthyInt f.mileage then
    let m := f.mileage.getD 0
    let lower := m * 4 / 5
    let upper := m * 6 / 5
    q.filter (fun v =>
      match v.listing_mileage with
      | some mv => lower ≤ mv && mv ≤ upper
      | none => false)
  else q

/-- The `order_by(Vehicle.listing_mileage)` comparison: NULL mileage sorts
first (SQLite ascending order), then by mileage. -/
def mileageLeB (a b : Vehicle) : Bool :=
  match a.listing_mileage, b.listing_mileage with
  | none, _ => true
  | some _, none => false
  | some x, some y => x ≤ y

/-- Insert a vehicle into a mileage-sorted list. -/
def insertByMileage (v : Vehicle) : List Vehicle → List Vehicle
  | [] => [v]
  | w :: ws => if mileageLeB v w then v :: w :: ws else w :: insertByMileage v ws

/-- SQL `order_by(Vehicle.listing_mileage)`. -/
def sortByMileage : List Vehicle → List Vehicle
  | [] => []
  | v :: rest => insertByMileage v (sortByMileage rest)

/-- Source `VehicleRepository.get_listings_with_filters(filters, limit=100)`.
`if limit:` is a truthiness test, so `limit=None` (and `0`) returns all
rows. -/
def get_listings_with_filters (db : List Vehicle) (f : Filters)
    (limit : Option Nat) : List Vehicle :=
  let q := sortByMileage (applyOptFilters f (db.filter (matchesBase f)))
  match limit with
  | some l => if l == 0 then q else q.take l
  | none => q

/-- The non-null prices of the rows matching a filter set — the inputs of
the SQL `AVG` (the base filter already demands a non-null price, so this
is every matching row's price). -/
def matchedPrices (db : List Vehicle) (f : Filters) : List ℚ :=
  (applyOptFilters f (db.filter (matchesBase f))).filterMap
    (fun v => v.listing_price)

/-- Source `VehicleRepository.get_average_price_with_filters`: SQL `AVG` over the
matching rows (NULL when no row matches), then `float(result) if result
else None` — which also maps an average of exactly `0` to `None`. -/
def get_average_price_with_filters (db : List Vehicle) (f : Filters) :
    Option ℚ :=
  if (matchedPrices db f).isEmpty then none
  else if (matchedPrices db f).sum / ((matchedPrices db f).length : ℚ) == 0 then
    none
  else some ((matchedPrices db f).sum / ((matchedPrices db f).length : ℚ))

/-! ### Regression trainer (`RegressionService.train_model_for_vehicle`) -/

/-- One training row: the pandas record `{"price": …, feature: …, …}` as an
association list in insertion order, each value optional (`None` ↦
`Option.none`, to be cleaned by `dropna`). -/
abbrev Row := List (String × Option ℚ)

/-- The per-listing record built inside the training loop.  Keys are
inserted in the source's fixed order price, mileage, trim, color, state;
a feature key is present exactly when it was requested.  Only the mileage
value can be missing: the three categorical encoders are total. -/
def buildEntry (features_to_use : List String) (v : Vehicle) : Row :=
  [("price", v.listing_price)]
    ++ (if features_to_use.contains "mileage" then
        [("mileage", v.listing_mileage.map (fun m => (m : ℚ)))] else [])
    ++ (if features_to_use.contains "trim" then
        [("trim", some (trim_to_numeric v.trim))] else [])
    ++ (if features_to_use.contains "color" then
        [("color", some (is_premium_color v.exterior_color))] else [])
    ++ (if features_to_use.contains "state" then
        [("state", some (is_high_cost_state v.dealer_state))] else [])

/-- A row survives `DataFrame.dropna()` when every value is present. -/
def rowComplete (r : Row) : Bool := r.all (fun p => p.2.isSome)

/-- The values of column `f` over a cleaned data frame (`df[f]`). -/
def colVals (df : List Row) (f : String) : List ℚ :=
  df.filterMap (fun r => (r.lookup f).join)

/-- Pandas `df.columns` of the training frame: `price` plus the requested members
of the fixed feature vocabulary, in pandas insertion order. -/
def dfColumns (features_to_use : List String) : List String :=
  "price" :: (["mileage", "trim", "color", "state"].filter
    (fun f => features_to_use.contains f))

/-- Stand-in for a fitted `LinearRegression`+`StandardScaler` pair: all the
orchestrator does with it is call `predict` on the encoded input record
(the scaler transform is composed inside `predict`). -/
structure ModelObj where
  predict : List (String × Option ℚ) → ℚ

/-- The return value of `train_model_for_vehicle`.  The source returns a
3-tuple `(None, None, [])` from its first guard and 4-tuples
`(model, scaler, features, rmse)` everywhere else; the caller unpacks four
values, so the arity is semantically significant and is kept in the type. -/
inductive TrainResult
  | tuple3
  | tuple4 (model : Option ModelObj) (scaler : Option Unit)
      (features : List String) (rmse : Option ℚ)

/-- Abstraction of the sklearn fitting step (the body of the `try:` block):
given the cleaned frame and the surviving features it either fails (the
caught exception → `(None, None, [], None)`) or yields a fitted model plus
the `_calculate_rmse` result (itself `None` when that helper's own
`try/except` fails). -/
structure FitOracle where
  fit : List Row → List String → Option (ModelObj × Option ℚ)

/-- The exact-(year, make, model) filter dictionary used by the trainer
(its `"listing_price"`/`"listing_mileage"` flags are ignored by the
repository). -/
def plainFilters (year : Int) (make model : String) : Filters :=
  ⟨year, make, model, none, none, none, none⟩

/-- The listings the trainer fetches (`limit=None`). -/
def trainListings (db : List Vehicle) (year : Int) (make model : String) :
    List Vehicle :=
  get_listings_with_filters db (plainFilters year make model) none

/-- The cleaned training frame: one row per fetched listing, then
`dropna`. -/
def trainingRows (db : List Vehicle) (year : Int) (make model : String)
    (features_to_use : List String) : List Row :=
  ((trainListings db year make model).map (buildEntry features_to_use)).filter
    rowComplete

/-- The surviving features: requested, present as a column, and with more
than one distinct value in the cleaned sample (`len(df[f].unique()) > 1`). -/
def availableFeatures (db : List Vehicle) (year : Int) (make model : String)
    (features_to_use : List String) : List String :=
  features_to_use.filter (fun f =>
    (dfColumns features_to_use).contains f
      && decide (1 < ((colVals (trainingRows db year make model features_to_use) f).dedup.length)))

/-- Source `RegressionService.train_model_for_vehicle`.  The first guard
(`if not listings or len(listings) < 10`) returns the bare 3-tuple
`(None, None, [])` of the source; all later returns are 4-tuples. -/
def train_model_for_vehicle (ora : FitOracle) (db : List Vehicle)
    (year : Int) (make model : String) (features_to_use : List String) :
    TrainResult :=
  if (trainListings db year make model).isEmpty
      || (trainListings db year make model).length < 10 then
    TrainResult.tuple3
  else if (availableFeatures db year make model features_to_use).length == 0
      || (trainingRows db year make model features_to_use).length < 5 then
    TrainResult.tuple4 none none [] none
  else
    match ora.fit (trainingRows db year make model features_to_use)
        (availableFeatures db year make model features_to_use) with
    | none => TrainResult.tuple4 none none [] none
    | some (m, r) =>
      TrainResult.tuple4 (some m) (some ())
        (availableFeatures db year make model features_to_use) r

/-! ### Valuation orchestrator (`VehicleService.calculate_market_value`,
`VehicleService._get_fallback_estimate`) -/

/-- The output envelope.  `calculation_date` (wall clock) is omitted;
`features_used`/`samples_used` model the `training_metrics` block that only
the regression path emits. -/
structure ValuationResult where
  estimate : String
  listings : List Vehicle
  method : String
  confidence : String
  rmse : Option ℚ
  rmse_percentage : Option ℚ
  features_used : Option (List String)
  samples_used : Option Nat
deriving DecidableEq, Repr

/-- The filter dictionary `_get_fallback_estimate` builds: each optional
request value is added only when Python-truthy (`if mileage: …`,
`if trim: …`, …). -/
def fallbackFilters (year : Int) (make model : String) (mileage : Option Int)
    (trim color dealer_state : Option String) : Filters :=
  ⟨year, make, model,
    (if truthyStr trim then trim else none),
    (if truthyStr color then color else none),
    (if truthyStr dealer_state then dealer_state else none),
    (if truthyInt mileage then mileage else none)⟩

/-- The `no_data` envelope returned when no (truthy) average price exists.
Note the hard-coded empty `listings` list in the source. -/
def noDataResult : ValuationResult :=
  ⟨"N/A", [], "no_data", "low", none, none, none, none⟩

/-- Source `VehicleService._get_fallback_estimate`. -/
def _get_fallback_estimate (currentYear : Int) (db : List Vehicle)
    (year : Int) (make model : String) (mileage : Option Int)
    (trim color dealer_state : Option String) : ValuationResult :=
  let filters := fallbackFilters year make model mileage trim color dealer_state
  let listings := get_listings_with_filters db filters (some 100)
  let avg_price := get_average_price_with_filters db filters
  if truthyQ avg_price then
    let original_price := avg_price.getD 0
    let p1 := if truthyInt mileage then
        _adjust_for_mileage currentYear original_price (mileage.getD 0) year
      else original_price
    let p2 := if truthyStr trim then _adjust_for_trim p1 (trim.getD "") else p1
    let p3 := if truthyStr color then _adjust_for_body_color p2 (color.getD "")
      else p2
    let p4 := if truthyStr dealer_state then
        _adjust_for_state p3 (dealer_state.getD "")
      else p3
    let price_diff := |p4 - original_price|
    let error_pct : Option ℚ :=
      if 0 < original_price then some (price_diff / original_price * 100)
      else none
    ⟨_format_price (some p4), listings, "adjusted_average",
      _determine_fallback_confidence listings.length error_pct,
      none, error_pct.map pyRound2, none, none⟩
  else noDataResult

/-- The `requested_features` list built at the top of
`calculate_market_value`: membership is `is not None`, in the fixed order
mileage, trim, color, state. -/
def requested_features (mileage : Option Int)
    (trim color dealer_state : Option String) : List String :=
  (if mileage.isSome then ["mileage"] else [])
    ++ (if trim.isSome then ["trim"] else [])
    ++ (if color.isSome then ["color"] else [])
    ++ (if dealer_state.isSome then ["state"] else [])

/-- Python `sorted` on the feature-name strings (lexicographic). -/
def sortedFeatures (fs : List String) : List String :=
  List.insertionSort (fun a b => a ≤ b) fs

/-- The model-cache key
`f"regression_{year}_{make}_{model}_" + "_".join(sorted(requested_features))`. -/
def model_key (year : Int) (make model : String) (fs : List String) : String :=
  "regression_" ++ toString year ++ "_" ++ make ++ "_" ++ model ++ "_"
    ++ String.intercalate "_" (sortedFeatures fs)

/-- A cached tuple `(model, scaler, used_features, rmse)`. -/
abbrev CachedModel := Option ModelObj × Option Unit × List String × Option ℚ

/-- The external model cache, as the orchestrator reads it
(`cache.get(model_key)`); the `cache.set` write is a side effect with no
bearing on the returned value. -/
abbrev ModelCache := String → Option CachedModel

/-- The one runtime error the orchestrator can raise: unpacking the
trainer's 3-tuple into four names. -/
inductive PyError
  | valueError
deriving DecidableEq, Repr

/-- The `input_features` record of the predict path: raw request mileage
(not re-encoded), encoded trim/color/state, keyed by the features the
trained model retained. -/
def inputFeatures (used_features : List String) (mileage : Option Int)
    (trim color dealer_state : Option String) : List (String × Option ℚ) :=
  (if used_features.contains "mileage" then
    [("mileage", mileage.map (fun m => (m : ℚ)))] else [])
    ++ (if used_features.contains "trim" then
        [("trim", some (trim_to_numeric trim))] else [])
    ++ (if used_features.contains "color" then
        [("color", some (is_premium_color color))] else [])
    ++ (if used_features.contains "state" then
        [("state", some (is_high_cost_state dealer_state))] else [])

/-- The `rmse_percentage` of the predict path: computed only when the RMSE
is known and the predicted price is positive. -/
def regression_rmse_pct (rmse : Option ℚ) (predicted_price : ℚ) : Option ℚ :=
  match rmse with
  | some r => if 0 < predicted_price then some (r / predicted_price * 100)
    else none
  | none => none

/-- The confidence assignment of the predict path (vehicle_service.py
lines 78–87): known RMSE with positive prediction goes through
`_determine_confidence`; unknown RMSE falls back on the comparable-listing
count; every other combination is `"low"`. -/
def regression_confidence (rmse : Option ℚ) (predicted_price : ℚ)
    (nListings : Nat) : String :=
  match rmse with
  | some _ =>
    if 0 < predicted_price then
      _determine_confidence (regression_rmse_pct rmse predicted_price)
    else "low"
  | none => if 10 ≤ nListings then "medium" else "low"

/-- The result envelope of the predict path, as assembled in the
`return {...}` of the regression branch. -/
def regressionResult (db : List Vehicle) (year : Int) (make model : String)
    (used_features : List String) (predicted_price : ℚ) (rmse : Option ℚ) :
    ValuationResult :=
  let listings :=
    get_listings_with_filters db (plainFilters year make model) (some 100)
  ⟨_format_price (some predicted_price), listings,
    "regression (" ++ String.intercalate ", " used_features ++ ")",
    regression_confidence rmse predicted_price listings.length,
    rmse.map pyRound2, (regression_rmse_pct rmse predicted_price).map pyRound2,
    some used_features, some listings.length⟩

/-- The cached (or freshly loaded) tuple: `cache.get(model_key)` when
truthy, else the all-`None` default of the source's conditional
expression. -/
def initCached (cache : ModelCache) (year : Int) (make model : String)
    (mileage : Option Int) (trim color dealer_state : Option String) :
    CachedModel :=
  match cache (model_key year make model
      (requested_features mileage trim color dealer_state)) with
  | some tup => tup
  | none => (none, none, [], none)

/-- The tail of `calculate_market_value` after the tuple
`(regression_model, scaler, used_features, rmse)` is settled:
`if regression_model and scaler and used_features:` predict, else fall
back.  The scaler transform is composed into `ModelObj.predict`. -/
def predictOrFallback (currentYear : Int) (db : List Vehicle) (year : Int)
    (make model : String) (mileage : Option Int)
    (trim color dealer_state : Option String) (cm : CachedModel) :
    ValuationResult :=
  match cm with
  | (regression_model, scaler, used_features, rmse) =>
    if regression_model.isSome && scaler.isSome && !used_features.isEmpty then
      regressionResult db year make model used_features
        ((regression_model.getD ⟨fun _ => 0⟩).predict
          (inputFeatures used_features mileage trim color dealer_state))
        rmse
    else
      _get_fallback_estimate currentYear db year make model mileage trim
        color dealer_state

/-- Source `VehicleService.calculate_market_value`.  The `@cache.memoize`
decorator only short-circuits repeated identical calls and is not part of
the value semantics.  When the cache misses and at least one feature was
requested, the trainer's return tuple is unpacked into four names; the
3-tuple of the insufficient-listings branch therefore raises a
`ValueError` (`Except.error`). -/
def calculate_market_value (ora : FitOracle) (cache : ModelCache)
    (currentYear : Int) (db : List Vehicle) (year : Int) (make model : String)
    (mileage : Option Int) (trim color dealer_state : Option String) :
    Except PyError ValuationResult :=
  if (initCached cache year make model mileage trim color dealer_state).1.isNone
      && !(requested_features mileage trim color dealer_state).isEmpty then
    match train_model_for_vehicle ora db year make model
        (requested_features mileage trim color dealer_state) with
    | TrainResult.tuple3 => Except.error PyError.valueError
    | TrainResult.tuple4 m s fs r =>
      Except.ok (predictOrFallback currentYear db year make model mileage
        trim color dealer_state (m, s, fs, r))
  else
    Except.ok (predictOrFallback currentYear db year make model mileage trim
      color dealer_state
      (initCached cache year make model mileage trim color dealer_state))

/-! ### Concrete fixtures used by witnesses and counterexamples -/

/-- A store with a single matching 2015 Toyota Camry listing whose price
is the (non-null) value `0`. -/
def dbZero : List Vehicle :=
  [⟨2015, "Toyota", "Camry", none, some 0, some 50000, none, none⟩]

/-- A price-bearing 2015 Toyota Camry listing with the given mileage and
price. -/
def mkCamry (m : Int) (p : ℚ) : Vehicle :=
  ⟨2015, "Toyota", "Camry", none, some p, some m, none, none⟩

/-- Ten price-bearing 2015 Toyota Camry listings with varying mileage and
price. -/
def db10 : List Vehicle :=
  [mkCamry 10000 20000, mkCamry 20000 19000, mkCamry 30000 18500,
   mkCamry 40000 18000, mkCamry 50000 17000, mkCamry 60000 16500,
   mkCamry 70000 16000, mkCamry 80000 15000, mkCamry 90000 14500,
   mkCamry 100000 14000]

/-- A fit oracle whose sklearn step always fails (never reached by the
scenarios that use it). -/
def oraNone : FitOracle := ⟨fun _ _ => none⟩

/-- A fit oracle whose sklearn step always succeeds, predicting 15000
with an in-sample RMSE of 500. -/
def oraOk : FitOracle := ⟨fun _ _ => some (⟨fun _ => 15000⟩, some 500)⟩

/-- An empty model cache (every lookup misses). -/
def cacheEmpty : ModelCache := fun _ => none

/-! ### Helper lemmas -/

/-- The mileage `adjustment` is strictly monotone in the mileage
difference: a quadratic with positive coefficients above zero, a positive
linear slope at or below zero, and the pieces agree in sign at the
boundary. -/
theorem mileage_adjustment_lt {d1 d2 : ℚ} (h : d1 < d2) :
    mileage_adjustment d1 < mileage_adjustment d2 := by
  unfold mileage_adjustment
  split_ifs with h1 h2 h2
  · nlinarith
  · linarith
  · nlinarith
  · linarith

/-- Rounding `pyRound` lands on an integer within half a unit of its argument. -/
theorem pyRound_near (q : ℚ) : |(pyRound q : ℚ) - q| ≤ 1 / 2 := by
  have h0 : ((⌊q⌋ : ℤ) : ℚ) ≤ q := Int.floor_le q
  have h1 : q < ⌊q⌋ + 1 := Int.lt_floor_add_one q
  unfold pyRound
  split_ifs with ha hb hc <;> rw [abs_le] <;> constructor <;> push_cast <;>
    push_cast at ha h0 h1 ⊢ <;> linarith

/-- If the repository's average-price query returns a value, that value is
nonzero (`float(result) if result else None` filters zero out). -/
theorem get_average_ne_zero {db : List Vehicle} {f : Filters} {q : ℚ}
    (h : get_average_price_with_filters db f = some q) : ¬(q == 0) = true := by
  unfold get_average_price_with_filters at h
  split_ifs at h with he hz
  all_goals first
    | exact Option.noConfusion h
    | (injection h with h; rw [← h]; exact hz)

/-- The fallback result's method is `"adjusted_average"` when the average
price is truthy and `"no_data"` otherwise. -/
theorem fallback_method_cases (cy : Int) (db : List Vehicle) (y : Int)
    (mk md : String) (mi : Option Int) (t c s : Option String) :
    (_get_fallback_estimate cy db y mk md mi t c s).method = "adjusted_average"
    ∨ (_get_fallback_estimate cy db y mk md mi t c s).method = "no_data" := by
  simp only [_get_fallback_estimate]
  by_cases h : truthyQ (get_average_price_with_filters db
      (fallbackFilters y mk md mi t c s)) = true
  · rw [if_pos h]; left; rfl
  · rw [if_neg h]; right; rfl

/-- The fallback result's estimate is `"N/A"` or a formatted multiple of
100. -/
theorem fallback_estimate_cases (cy : Int) (db : List Vehicle) (y : Int)
    (mk md : String) (mi : Option Int) (t c s : Option String) :
    (_get_fallback_estimate cy db y mk md mi t c s).estimate = "N/A"
    ∨ ∃ n : Int, (_get_fallback_estimate cy db y mk md mi t c s).estimate
        = "$" ++ commaGrouped n ∧ (100 : Int) ∣ n := by
  simp only [_get_fallback_estimate]
  by_cases h : truthyQ (get_average_price_with_filters db
      (fallbackFilters y mk md mi t c s)) = true
  · rw [if_pos h]; exact Or.inr ⟨_, rfl, dvd_mul_left _ _⟩
  · rw [if_neg h]; exact Or.inl rfl

/-- Helper `predictOrFallback` yields either a regression envelope or the
fallback result. -/
theorem predictOrFallback_shape (cy : Int) (db : List Vehicle) (y : Int)
    (mk md : String) (mi : Option Int) (t c s : Option String)
    (cm : CachedModel) :
    (∃ fs pp rm, predictOrFallback cy db y mk md mi t c s cm
        = regressionResult db y mk md fs pp rm)
    ∨ predictOrFallback cy db y mk md mi t c s cm
        = _get_fallback_estimate cy db y mk md mi t c s := by
  obtain ⟨m, sc, fs, r⟩ := cm
  unfold predictOrFallback
  dsimp only
  by_cases h : (m.isSome && sc.isSome && !fs.isEmpty) = true
  · rw [if_pos h]; exact Or.inl ⟨fs, _, r, rfl⟩
  · rw [if_neg h]; exact Or.inr rfl

/-- Every `Except.ok` value of the orchestrator is a regression envelope
or the fallback result. -/
theorem calculate_ok_shape (ora : FitOracle) (cache : ModelCache) (cy : Int)
    (db : List Vehicle) (y : Int) (mk md : String) (mi : Option Int)
    (t c s : Option String) (res : ValuationResult)
    (h : calculate_market_value ora cache cy db y mk md mi t c s
      = Except.ok res) :
    (∃ fs pp rm, res = regressionResult db y mk md fs pp rm)
    ∨ res = _get_fallback_estimate cy db y mk md mi t c s := by
  unfold calculate_market_value at h
  by_cases h1 : ((initCached cache y mk md mi t c s).1.isNone
      && !(requested_features mi t c s).isEmpty) = true
  · rw [if_pos h1] at h
    rcases htr : train_model_for_vehicle ora db y mk md
        (requested_features mi t c s) with _ | ⟨m, sc, fs, r⟩ <;> rw [htr] at h
    · exact Except.noConfusion h
    · injection h with h
      rw [← h]
      exact predictOrFallback_shape cy db y mk md mi t c s (m, sc, fs, r)
  · rw [if_neg h1] at h
    injection h with h
    rw [← h]
    exact predictOrFallback_shape cy db y mk md mi t c s _

/-! ### Claim theorems -/

/-- C1: the claim says an insufficient-data request (≥1 feature, cache
miss, fewer than 10 price-bearing listings) silently falls back; the code
instead raises: `train_model_for_vehicle` returns the 3-tuple
`(None, None, [])` from that branch while `calculate_market_value` unpacks
four values, a `ValueError`. -/
theorem C1_insufficient_listings_raises (ora : FitOracle) (cache : ModelCache)
    (cy : Int) (db : List Vehicle) (y : Int) (mk md : String)
    (mi : Option Int) (t c s : Option String)
    (hfeat : requested_features mi t c s ≠ [])
    (hcache : cache (model_key y mk md (requested_features mi t c s)) = none)
    (hfew : (trainListings db y mk md).length < 10) :
    calculate_market_value ora cache cy db y mk md mi t c s
      = Except.error PyError.valueError := by
  have hinit : initCached cache y mk md mi t c s = (none, none, [], none) := by
    unfold initCached
    rw [hcache]
  have htr : train_model_for_vehicle ora db y mk md
      (requested_features mi t c s) = TrainResult.tuple3 := by
    unfold train_model_for_vehicle
    rw [if_pos (by simp [hfew])]
  unfold calculate_market_value
  rw [if_pos (by rw [hinit]; simpa using hfeat), htr]

/-- Witness for C1: the concrete failing input — empty store, request for
(2015, Toyota, Camry) with mileage 80000 — evaluates to the error. -/
theorem C1_insufficient_listings_raises_witness :
    calculate_market_value oraNone cacheEmpty 2025 [] 2015 "Toyota" "Camry"
      (some 80000) none none none = Except.error PyError.valueError :=
  C1_insufficient_listings_raises oraNone cacheEmpty 2025 [] 2015 "Toyota"
    "Camry" (some 80000) none none none (by decide) rfl (by decide)

/-- C3: mileage-adjustment monotonicity around
`expected = (current_year − year) × 12000` for a positive base price:
below expected the adjusted price strictly increases as mileage decreases;
above expected it strictly decreases as mileage increases as long as the
higher-mileage result clears the 30 % floor; and the two defining formulas
of the claim hold (the positive-diff branch keeping its 30 % clamp). -/
theorem C3_mileage_monotonicity (currentYear year : Int) (base : ℚ)
    (m1 m2 : Int) (hbase : 0 < base) :
    (m1 < m2 → m2 ≤ (currentYear - year) * 12000 →
      _adjust_for_mileage currentYear base m2 year
        < _adjust_for_mileage currentYear base m1 year)
    ∧ ((currentYear - year) * 12000 ≤ m1 → m1 < m2 →
      base * (3 / 10) < _adjust_for_mileage currentYear base m2 year →
      _adjust_for_mileage currentYear base m2 year
        < _adjust_for_mileage currentYear base m1 year)
    ∧ (∀ m : Int, (currentYear - year) * 12000 < m →
      _adjust_for_mileage currentYear base m year
        = max (base - ((m - (currentYear - year) * 12000 : Int) : ℚ)
              * (15 / 100
                + ((m - (currentYear - year) * 12000 : Int) : ℚ) / 100000 * (5 / 100)))
            (base * (3 / 10)))
    ∧ (∀ m : Int, m ≤ (currentYear - year) * 12000 →
      _adjust_for_mileage currentYear base m year
        = base - ((m - (currentYear - year) * 12000 : Int) : ℚ) * (8 / 100)) := by
  have hcast : ∀ a b : Int, a < b →
      ((a - (currentYear - year) * 12000 : Int) : ℚ)
        < ((b - (currentYear - year) * 12000 : Int) : ℚ) := by
    intro a b hab
    exact_mod_cast Int.sub_lt_sub_right hab _
  have hle0 : ∀ a : Int, a ≤ (currentYear - year) * 12000 →
      ((a - (currentYear - year) * 12000 : Int) : ℚ) ≤ 0 := by
    intro a ha
    exact_mod_cast Int.sub_nonpos_of_le ha
  have hadjle : ∀ a : Int, a ≤ (currentYear - year) * 12000 →
      mileage_adjustment ((a - (currentYear - year) * 12000 : Int) : ℚ)
        = ((a - (currentYear - year) * 12000 : Int) : ℚ) * (8 / 100) := by
    intro a ha
    unfold mileage_adjustment
    rw [if_neg (not_lt.mpr (hle0 a ha))]
  have hmaxle : ∀ a : Int, a ≤ (currentYear - year) * 12000 →
      _adjust_for_mileage currentYear base a year
        = base - ((a - (currentYear - year) * 12000 : Int) : ℚ) * (8 / 100) := by
    intro a ha
    unfold _adjust_for_mileage
    rw [hadjle a ha]
    refine max_eq_left ?_
    have := hle0 a ha
    nlinarith
  refine ⟨?_, ?_, ?_, hmaxle⟩
  · intro h12 h2E
    rw [hmaxle m2 h2E, hmaxle m1 (le_of_lt (lt_of_lt_of_le h12 h2E))]
    have := hcast m1 m2 h12
    linarith
  · intro hE1 h12 hclamp
    have hlt := mileage_adjustment_lt (hcast m1 m2 h12)
    unfold _adjust_for_mileage at hclamp ⊢
    rcases lt_max_iff.mp hclamp with hq | hq
    · calc max (base - mileage_adjustment
            ((m2 - (currentYear - year) * 12000 : Int) : ℚ)) (base * (3 / 10))
          = base - mileage_adjustment
            ((m2 - (currentYear - year) * 12000 : Int) : ℚ) :=
            max_eq_left (le_of_lt hq)
        _ < base - mileage_adjustment
            ((m1 - (currentYear - year) * 12000 : Int) : ℚ) := by linarith
        _ ≤ max (base - mileage_adjustment
            ((m1 - (currentYear - year) * 12000 : Int) : ℚ)) (base * (3 / 10)) :=
            le_max_left _ _
    · exact absurd hq (lt_irrefl _)
  · intro m hm
    unfold _adjust_for_mileage mileage_adjustment
    rw [if_pos]
    exact_mod_cast Int.sub_pos_of_lt hm

/-- Witness for C3: at current year 2025, vehicle year 2015 (expected
mileage 120000) and base 10000, raising mileage 125000 → 130000 lowers the
price and lowering 120000 → 110000 raises it. -/
theorem C3_mileage_monotonicity_witness :
    _adjust_for_mileage 2025 10000 130000 2015
        < _adjust_for_mileage 2025 10000 125000 2015
    ∧ _adjust_for_mileage 2025 10000 120000 2015
        < _adjust_for_mileage 2025 10000 110000 2015 :=
  ⟨(C3_mileage_monotonicity 2025 2015 10000 125000 130000 (by norm_num)).2.1
      (by decide) (by decide)
      (by norm_num [_adjust_for_mileage, mileage_adjustment, max_def]),
   (C3_mileage_monotonicity 2025 2015 10000 110000 120000 (by norm_num)).1
      (by decide) (by decide)⟩


/-- C5 counterexample: `"custom"` contains the budget keyword `"s"` as a
substring, so `adjustTrim(20000, "Custom")` is `19000`, not the claimed
no-op `20000`. -/
theorem C5_counterexample :
    _adjust_for_trim 20000 "Custom" = 19000
    ∧ _adjust_for_trim 20000 "Custom" ≠ 20000
    ∧ strContains (strLower "Custom") "s" = true := by
  refine ⟨?_, ?_, by decide⟩
  · simp only [_adjust_for_trim]
    rw [if_neg (by decide), if_pos (by decide)]
    norm_num
  · simp only [_adjust_for_trim]
    rw [if_neg (by decide), if_pos (by decide)]
    norm_num

/-- C5 amended: premium substring match multiplies by 1.10 (checked
first), budget substring match by 0.95, no match is a no-op;
`adjustTrim(20000, "Limited") = 22000`, `adjustTrim(20000, "LX") = 19000`,
and `adjustTrim(20000, "Custom") = 19000` — "Custom" is caught by the
budget keyword `"s"` under substring matching, so it is not a no-op. -/
theorem C5_trim_adjustment (p : ℚ) (t : String) :
    ((∃ k ∈ premium_trims_adj, strContains (strLower t) k = true) →
      _adjust_for_trim p t = p * (11 / 10))
    ∧ ((¬ ∃ k ∈ premium_trims_adj, strContains (strLower t) k = true) →
      (∃ k ∈ budget_trims, strContains (strLower t) k = true) →
      _adjust_for_trim p t = p * (19 / 20))
    ∧ ((¬ ∃ k ∈ premium_trims_adj, strContains (strLower t) k = true) →
      (¬ ∃ k ∈ budget_trims, strContains (strLower t) k = true) →
      _adjust_for_trim p t = p)
    ∧ _adjust_for_trim 20000 "Limited" = 22000
    ∧ _adjust_for_trim 20000 "LX" = 19000
    ∧ _adjust_for_trim 20000 "Custom" = 19000 := by
  have hany : ∀ l : List String, (∃ k ∈ l, strContains (strLower t) k = true) →
      (l.any fun k => strContains (strLower t) k) = true := by
    intro l hl
    exact List.any_eq_true.mpr (by simpa using hl)
  have hnany : ∀ l : List String, (¬ ∃ k ∈ l, strContains (strLower t) k = true) →
      (l.any fun k => strContains (strLower t) k) = false := by
    intro l hl
    rw [← Bool.not_eq_true]
    intro hc
    exact hl (by simpa using List.any_eq_true.mp hc)
  refine ⟨fun h => ?_, fun h1 h2 => ?_, fun h1 h2 => ?_, ?_, ?_, ?_⟩
  · simp only [_adjust_for_trim]
    rw [if_pos (hany _ h)]
  · simp only [_adjust_for_trim]
    rw [if_neg (by simp [hnany _ h1]), if_pos (hany _ h2)]
  · simp only [_adjust_for_trim]
    rw [if_neg (by simp [hnany _ h1]), if_neg (by simp [hnany _ h2])]
  · simp only [_adjust_for_trim]
    rw [if_pos (by decide)]
    norm_num
  · simp only [_adjust_for_trim]
    rw [if_neg (by decide), if_pos (by decide)]
    norm_num
  · simp only [_adjust_for_trim]
    rw [if_neg (by decide), if_pos (by decide)]
    norm_num

/-- Witness for C5: a premium trim through the first conjunct. -/
theorem C5_trim_adjustment_witness : _adjust_for_trim 20000 "Sport S" = 22000 := by
  have h := (C5_trim_adjustment 20000 "Sport S").1
    ⟨"sport", by decide, by decide⟩
  rw [h]
  norm_num

/-- C10: the cache key underscore-joins year, make, model and the sorted
feature names, so it is invariant under permutations of the requested
features, but it is not injective: the distinct vehicles
("A_B", "C") and ("A", "B_C") produce the same key. -/
theorem C10_model_key (y : Int) (mk md : String) (fs1 fs2 : List String)
    (h : fs1.Perm fs2) :
    model_key y mk md fs1 = model_key y mk md fs2
    ∧ model_key 2020 "A_B" "C" ["mileage"] = model_key 2020 "A" "B_C" ["mileage"]
    ∧ (("A_B", "C") : String × String) ≠ ("A", "B_C") := by
  refine ⟨?_, by decide, by decide⟩
  have hs : sortedFeatures fs1 = sortedFeatures fs2 := by
    unfold sortedFeatures
    exact List.eq_of_perm_of_sorted
      (((List.perm_insertionSort _ fs1).trans h).trans
        (List.perm_insertionSort _ fs2).symm)
      (List.sorted_insertionSort _ fs1) (List.sorted_insertionSort _ fs2)
  unfold model_key
  rw [hs]

/-- Witness for C10: the two supply orders of {mileage, trim} share one
key. -/
theorem C10_model_key_witness :
    model_key 2015 "Toyota" "Camry" ["trim", "mileage"]
      = model_key 2015 "Toyota" "Camry" ["mileage", "trim"] :=
  (C10_model_key 2015 "Toyota" "Camry" ["trim", "mileage"] ["mileage", "trim"]
    (List.Perm.swap "mileage" "trim" [])).1


/-- Closed form of the predict-path confidence when the RMSE is known and
the prediction is positive. -/
theorem regression_confidence_pos (r p : ℚ) (n : ℕ) (hp : 0 < p) :
    regression_confidence (some r) p n =
      if r < 5 / 100 * p then "high"
      else if r < 15 / 100 * p then "medium" else "low" := by
  have hpct : regression_rmse_pct (some r) p = some (r / p * 100) := by
    unfold regression_rmse_pct
    dsimp only
    rw [if_pos hp]
  unfold regression_confidence
  dsimp only
  rw [if_pos hp, hpct]
  unfold _determine_confidence
  dsimp only
  have h5 : (r / p * 100 < 5) ↔ r < 5 / 100 * p := by
    rw [div_mul_eq_mul_div, div_lt_iff₀ hp]
    constructor <;> intro <;> linarith
  have h15 : (r / p * 100 < 15) ↔ r < 15 / 100 * p := by
    rw [div_mul_eq_mul_div, div_lt_iff₀ hp]
    constructor <;> intro <;> linarith
  by_cases h1 : r < 5 / 100 * p
  · rw [if_pos (h5.mpr h1), if_pos h1]
  · rw [if_neg (fun hc => h1 (h5.mp hc)), if_neg h1]
    by_cases h2 : r < 15 / 100 * p
    · rw [if_pos (h15.mpr h2), if_pos h2]
    · rw [if_neg (fun hc => h2 (h15.mp hc)), if_neg h2]

/-- Known RMSE with a non-positive prediction lands in the final `else`:
confidence `"low"`. -/
theorem regression_confidence_nonpos (r p : ℚ) (n : ℕ) (hp : ¬ 0 < p) :
    regression_confidence (some r) p n = "low" := by
  unfold regression_confidence
  dsimp only
  rw [if_neg hp]

/-- The predict-path confidence always lands in {high, medium, low}. -/
theorem regression_confidence_mem (rm : Option ℚ) (p : ℚ) (n : ℕ) :
    regression_confidence rm p n = "high"
    ∨ regression_confidence rm p n = "medium"
    ∨ regression_confidence rm p n = "low" := by
  rcases rm with _ | r
  · unfold regression_confidence
    dsimp only
    by_cases h : 10 ≤ n
    · rw [if_pos h]; exact Or.inr (Or.inl rfl)
    · rw [if_neg h]; exact Or.inr (Or.inr rfl)
  · by_cases hp : 0 < p
    · rw [regression_confidence_pos r p n hp]
      by_cases h1 : r < 5 / 100 * p
      · rw [if_pos h1]; exact Or.inl rfl
      · rw [if_neg h1]
        by_cases h2 : r < 15 / 100 * p
        · rw [if_pos h2]; exact Or.inr (Or.inl rfl)
        · rw [if_neg h2]; exact Or.inr (Or.inr rfl)
    · rw [regression_confidence_nonpos r p n hp]
      exact Or.inr (Or.inr rfl)

/-- C4: with a known (nonnegative) RMSE the confidence is high exactly
below 5 % of the predicted price, medium from 5 % up to (but excluding)
15 %, low otherwise; with unknown RMSE it is medium with at least ten
comparable listings and low otherwise; and the value is always one of
{high, medium, low}. -/
theorem C4_regression_confidence (r p : ℚ) (n : ℕ) (rm : Option ℚ)
    (hr : 0 ≤ r) :
    (regression_confidence (some r) p n = "high" ↔ r < 5 / 100 * p)
    ∧ (regression_confidence (some r) p n = "medium"
        ↔ 5 / 100 * p ≤ r ∧ r < 15 / 100 * p)
    ∧ (regression_confidence (some r) p n = "low" ↔ 15 / 100 * p ≤ r)
    ∧ (regression_confidence none p n = if 10 ≤ n then "medium" else "low")
    ∧ (regression_confidence rm p n = "high"
        ∨ regression_confidence rm p n = "medium"
        ∨ regression_confidence rm p n = "low") := by
  by_cases hp : 0 < p
  · rw [regression_confidence_pos r p n hp]
    refine ⟨?_, ?_, ?_, rfl, regression_confidence_mem rm p n⟩
    · by_cases h1 : r < 5 / 100 * p
      · rw [if_pos h1]
        exact iff_of_true rfl h1
      · rw [if_neg h1]
        by_cases h2 : r < 15 / 100 * p
        · rw [if_pos h2]
          exact iff_of_false (by decide) h1
        · rw [if_neg h2]
          exact iff_of_false (by decide) h1
    · by_cases h1 : r < 5 / 100 * p
      · rw [if_pos h1]
        exact iff_of_false (by decide) (fun hc => absurd h1 (not_lt.mpr hc.1))
      · rw [if_neg h1]
        by_cases h2 : r < 15 / 100 * p
        · rw [if_pos h2]
          exact iff_of_true rfl ⟨not_lt.mp h1, h2⟩
        · rw [if_neg h2]
          exact iff_of_false (by decide) (fun hc => h2 hc.2)
    · by_cases h1 : r < 5 / 100 * p
      · rw [if_pos h1]
        exact iff_of_false (by decide)
          (not_le.mpr (lt_of_lt_of_le h1 (by linarith)))
      · rw [if_neg h1]
        by_cases h2 : r < 15 / 100 * p
        · rw [if_pos h2]
          exact iff_of_false (by decide) (not_le.mpr h2)
        · rw [if_neg h2]
          exact iff_of_true rfl (not_lt.mp h2)
  · rw [regression_confidence_nonpos r p n hp]
    push_neg at hp
    refine ⟨?_, ?_, ?_, rfl, regression_confidence_mem rm p n⟩
    · exact iff_of_false (by decide) (not_lt.mpr (by linarith))
    · exact iff_of_false (by decide) (fun hc => absurd hc.2 (not_lt.mpr (by linarith)))
    · exact iff_of_true rfl (by linarith)

/-- Witness for C4: RMSE 1 on a predicted price of 100 is below 5 % and is
reported as high confidence. -/
theorem C4_regression_confidence_witness :
    regression_confidence (some 1) 100 0 = "high" :=
  (C4_regression_confidence 1 100 0 none (by norm_num)).1.mpr (by norm_num)

/-- C8: the price formatter maps `None` to `"N/A"` and any price to a
dollar-prefixed comma-grouped multiple of 100 within 50 of the price (a
nearest multiple of 100, ties to even); consequently every result the
orchestrator returns carries either `"N/A"` or such a multiple of 100. -/
theorem C8_format_price :
    _format_price none = "N/A"
    ∧ (∀ p : ℚ, ∃ n : Int, _format_price (some p) = "$" ++ commaGrouped n
        ∧ (100 : Int) ∣ n ∧ |(n : ℚ) - p| ≤ 50)
    ∧ (∀ (ora : FitOracle) (cache : ModelCache) (cy : Int) (db : List Vehicle)
        (y : Int) (mk md : String) (mi : Option Int) (t c s : Option String)
        (res : ValuationResult),
        calculate_market_value ora cache cy db y mk md mi t c s = Except.ok res →
        res.estimate = "N/A"
        ∨ ∃ n : Int, res.estimate = "$" ++ commaGrouped n ∧ (100 : Int) ∣ n) := by
  refine ⟨rfl, ?_, ?_⟩
  · intro p
    refine ⟨pyRound (p / 100) * 100, rfl, dvd_mul_left _ _, ?_⟩
    have h := pyRound_near (p / 100)
    rw [abs_le] at h ⊢
    push_cast at h ⊢
    constructor <;> linarith [h.1, h.2]
  · intro ora cache cy db y mk md mi t c s res h
    rcases calculate_ok_shape ora cache cy db y mk md mi t c s res h with
      ⟨fs, pp, rm, hres⟩ | hres
    · right
      refine ⟨pyRound (pp / 100) * 100, ?_, dvd_mul_left _ _⟩
      rw [hres]
      rfl
    · rw [hres]
      exact fallback_estimate_cases cy db y mk md mi t c s

/-- Witness for C8: the no-data envelope produced on an empty store
carries the `"N/A"` estimate. -/
theorem C8_format_price_witness :
    noDataResult.estimate = "N/A"
    ∨ ∃ n : Int, noDataResult.estimate = "$" ++ commaGrouped n
        ∧ (100 : Int) ∣ n :=
  C8_format_price.2.2 oraNone cacheEmpty 2025 [] 2015 "Toyota" "Camry"
    none none none none noDataResult rfl


/-- C9: a request with mileage 0 is asymmetric: `mileage is not None`
admits it as a regression feature (so the feature list — and hence the
sorted feature part of the cache key — contains "mileage"), while the
truthiness tests of the fallback path and of the repository filters treat
it as absent: the fallback result and both repository queries are
identical to those of a request with no mileage at all. -/
theorem C9_zero_mileage (cy : Int) (db : List Vehicle) (y : Int)
    (mk md : String) (t c s : Option String) (f : Filters) (L : Option Nat) :
    requested_features (some 0) t c s = "mileage" :: requested_features none t c s
    ∧ "mileage" ∈ sortedFeatures (requested_features (some 0) t c s)
    ∧ _get_fallback_estimate cy db y mk md (some 0) t c s
        = _get_fallback_estimate cy db y mk md none t c s
    ∧ get_listings_with_filters db
          ⟨f.year, f.make, f.model, f.trim, f.color, f.dealer_state, some 0⟩ L
        = get_listings_with_filters db
          ⟨f.year, f.make, f.model, f.trim, f.color, f.dealer_state, none⟩ L
    ∧ get_average_price_with_filters db
          ⟨f.year, f.make, f.model, f.trim, f.color, f.dealer_state, some 0⟩
        = get_average_price_with_filters db
          ⟨f.year, f.make, f.model, f.trim, f.color, f.dealer_state, none⟩ := by
  refine ⟨rfl, ?_, rfl, rfl, rfl⟩
  exact (List.perm_insertionSort _ _).mem_iff.mpr (List.mem_cons_self _ _)

/-- C2 counterexample: a store holding one matching listing whose
(non-null) price is 0 averages to 0, which `float(result) if result else
None` maps to `None`: the fallback returns the no-data envelope even
though a price-bearing listing matches the filters. -/
theorem C2_counterexample :
    (get_listings_with_filters dbZero
        (fallbackFilters 2015 "Toyota" "Camry" none none none none)
        (some 100)).length = 1
    ∧ dbZero.all (fun v => v.listing_price.isSome) = true
    ∧ (_get_fallback_estimate 2025 dbZero 2015 "Toyota" "Camry"
        none none none none).method = "no_data"
    ∧ (_get_fallback_estimate 2025 dbZero 2015 "Toyota" "Camry"
        none none none none).method ≠ "adjusted_average" := by
  refine ⟨rfl, rfl, by with_unfolding_all rfl, by with_unfolding_all decide⟩

/-- C2 amended: the fallback returns the no-data envelope iff the
average-price query yields nothing, which holds iff either no listing
matches the filters or the matching prices average to exactly zero
(Python's truthiness collapses a zero average into "no data"); whenever
the query yields a value, the method is `"adjusted_average"` with a
formatted numeric estimate. -/
theorem C2_no_data_iff (cy : Int) (db : List Vehicle) (y : Int)
    (mk md : String) (mi : Option Int) (t c s : Option String) :
    (_get_fallback_estimate cy db y mk md mi t c s = noDataResult
      ↔ get_average_price_with_filters db (fallbackFilters y mk md mi t c s)
          = none)
    ∧ (get_average_price_with_filters db (fallbackFilters y mk md mi t c s)
          = none
      ↔ (matchedPrices db (fallbackFilters y mk md mi t c s) = []
          ∨ (matchedPrices db (fallbackFilters y mk md mi t c s)).sum = 0))
    ∧ (get_average_price_with_filters db (fallbackFilters y mk md mi t c s)
          ≠ none →
        (_get_fallback_estimate cy db y mk md mi t c s).method
            = "adjusted_average"
        ∧ ∃ n : Int, (_get_fallback_estimate cy db y mk md mi t c s).estimate
            = "$" ++ commaGrouped n) := by
  refine ⟨?_, ?_, ?_⟩
  · rcases hA : get_average_price_with_filters db
        (fallbackFilters y mk md mi t c s) with _ | q
    · refine iff_of_true ?_ rfl
      simp only [_get_fallback_estimate, hA]
      rfl
    · refine iff_of_false ?_ (by simp)
      have hq : ¬(q == 0) = true := get_average_ne_zero hA
      have ht : truthyQ (get_average_price_with_filters db
          (fallbackFilters y mk md mi t c s)) = true := by
        rw [hA]
        unfold truthyQ
        simpa using hq
      intro hc
      have hm := congrArg ValuationResult.method hc
      rw [show noDataResult.method = "no_data" from rfl] at hm
      revert hm
      simp only [_get_fallback_estimate]
      rw [if_pos ht]
      exact fun hm => by simp at hm
  · unfold get_average_price_with_filters
    by_cases he : (matchedPrices db (fallbackFilters y mk md mi t c s)).isEmpty = true
    · rw [if_pos he]
      exact iff_of_true rfl (Or.inl (List.isEmpty_iff.mp he))
    · rw [if_neg he]
      have hlen : ((matchedPrices db (fallbackFilters y mk md mi t c s)).length : ℚ) ≠ 0 := by
        have hne : matchedPrices db (fallbackFilters y mk md mi t c s) ≠ [] := by
          intro hc
          exact he (by rw [hc]; rfl)
        exact Nat.cast_ne_zero.mpr
          (Nat.pos_iff_ne_zero.mp (List.length_pos.mpr hne))
      by_cases hz : ((matchedPrices db (fallbackFilters y mk md mi t c s)).sum
          / ((matchedPrices db (fallbackFilters y mk md mi t c s)).length : ℚ) == 0) = true
      · rw [if_pos hz]
        refine iff_of_true rfl (Or.inr ?_)
        have := beq_iff_eq.mp hz
        exact (div_eq_zero_iff.mp this).resolve_right hlen
      · rw [if_neg hz]
        refine iff_of_false (by simp) ?_
        rintro (hc | hc)
        · exact he (by rw [hc]; rfl)
        · exact hz (beq_iff_eq.mpr (by rw [hc, zero_div]))
  · intro hA
    rcases hA2 : get_average_price_with_filters db
        (fallbackFilters y mk md mi t c s) with _ | q
    · exact absurd hA2 hA
    · have hq : ¬(q == 0) = true := get_average_ne_zero hA2
      have ht : truthyQ (get_average_price_with_filters db
          (fallbackFilters y mk md mi t c s)) = true := by
        rw [hA2]
        unfold truthyQ
        simpa using hq
      constructor
      · simp only [_get_fallback_estimate]
        rw [if_pos ht]
      · simp only [_get_fallback_estimate]
        rw [if_pos ht]
        exact ⟨_, rfl⟩

/-- Witness for C2: on the ten-listing store the average is 16850 ≠ 0, so
the third conjunct applies and the method is `"adjusted_average"`. -/
theorem C2_no_data_iff_witness :
    (_get_fallback_estimate 2025 db10 2015 "Toyota" "Camry"
      none none none none).method = "adjusted_average" :=
  ((C2_no_data_iff 2025 db10 2015 "Toyota" "Camry" none none none none).2.2
    (by with_unfolding_all decide)).1


/-- C6: a trained model comes with at least 5 cleaned rows, a nonempty
retained-feature list that is a sub-sequence of the requested features,
and every retained feature takes more than one distinct encoded value in
the cleaned sample — so a zero-variance (constant) feature never appears
in the retained list. -/
theorem C6_training_guards (ora : FitOracle) (db : List Vehicle) (y : Int)
    (mk md : String) (fts : List String) (m : ModelObj) (sc : Option Unit)
    (retained : List String) (rm : Option ℚ)
    (h : train_model_for_vehicle ora db y mk md fts
      = TrainResult.tuple4 (some m) sc retained rm) :
    5 ≤ (trainingRows db y mk md fts).length
    ∧ retained ≠ []
    ∧ retained = availableFeatures db y mk md fts
    ∧ List.Sublist retained fts
    ∧ (∀ g ∈ retained,
        1 < ((colVals (trainingRows db y mk md fts) g).dedup.length))
    ∧ (∀ g, ((colVals (trainingRows db y mk md fts) g).dedup.length ≤ 1) →
        g ∉ retained) := by
  unfold train_model_for_vehicle at h
  by_cases h1 : ((trainListings db y mk md).isEmpty
      || decide ((trainListings db y mk md).length < 10)) = true
  · rw [if_pos h1] at h
    exact TrainResult.noConfusion h
  · rw [if_neg h1] at h
    by_cases h2 : ((availableFeatures db y mk md fts).length == 0
        || decide ((trainingRows db y mk md fts).length < 5)) = true
    · rw [if_pos h2] at h
      simp only [TrainResult.tuple4.injEq] at h
      exact absurd h.1 (by simp)
    · rw [if_neg h2] at h
      simp only [Bool.or_eq_true, beq_iff_eq, decide_eq_true_eq, not_or] at h2
      obtain ⟨hlen0, hlen5⟩ := h2
      rcases hf : ora.fit (trainingRows db y mk md fts)
          (availableFeatures db y mk md fts) with _ | ⟨m2, r2⟩ <;> rw [hf] at h
      · simp only [TrainResult.tuple4.injEq] at h
        exact absurd h.1 (by simp)
      · simp only [TrainResult.tuple4.injEq] at h
        obtain ⟨hm, hsc, hret, hrm⟩ := h
        have hmem : ∀ g ∈ retained,
            1 < ((colVals (trainingRows db y mk md fts) g).dedup.length) := by
          intro g hg
          rw [← hret] at hg
          have := (List.mem_filter.mp hg).2
          simp only [Bool.and_eq_true, decide_eq_true_eq] at this
          exact this.2
        refine ⟨not_lt.mp hlen5, ?_, hret.symm, ?_, hmem, ?_⟩
        · intro hc
          rw [hc] at hret
          exact hlen0 (by rw [hret]; rfl)
        · rw [← hret]
          exact List.filter_sublist fts
        · intro g hle hg
          exact absurd (hmem g hg) (not_lt.mpr hle)

/-- Witness for C6: on the ten-listing store with the always-succeeding
oracle, training on {mileage} retains exactly {mileage} and the guards
hold. -/
theorem C6_training_guards_witness :
    5 ≤ (trainingRows db10 2015 "Toyota" "Camry" ["mileage"]).length
    ∧ (["mileage"] : List String) ≠ [] :=
  ⟨(C6_training_guards oraOk db10 2015 "Toyota" "Camry" ["mileage"]
      ⟨fun _ => 15000⟩ (some ()) ["mileage"] (some 500)
      (by with_unfolding_all rfl)).1,
   (C6_training_guards oraOk db10 2015 "Toyota" "Camry" ["mileage"]
      ⟨fun _ => 15000⟩ (some ()) ["mileage"] (some 500)
      (by with_unfolding_all rfl)).2.1⟩

/-- C7 counterexample: a successful regression on the ten-listing store
labels its method `"regression (mileage)"` — with a space before the
parenthesis — which is none of the three labels the claim allows. -/
theorem C7_counterexample :
    (calculate_market_value oraOk cacheEmpty 2025 db10 2015 "Toyota" "Camry"
        (some 80000) none none none).toOption.map ValuationResult.method
      = some "regression (mileage)"
    ∧ ("regression (mileage)" : String) ≠ "regression(mileage)"
    ∧ ("regression (mileage)" : String) ≠ "adjusted_average"
    ∧ ("regression (mileage)" : String) ≠ "no_data" :=
  ⟨by with_unfolding_all rfl, by decide, by decide, by decide⟩

/-- C7 amended: every result the orchestrator actually returns is labelled
`"adjusted_average"`, `"no_data"`, or `"regression (<features>)"` — the
regression label has a space before the parenthesis and joins the retained
feature names with ", ". -/
theorem C7_method_labels (ora : FitOracle) (cache : ModelCache) (cy : Int)
    (db : List Vehicle) (y : Int) (mk md : String) (mi : Option Int)
    (t c s : Option String) (res : ValuationResult)
    (h : calculate_market_value ora cache cy db y mk md mi t c s
      = Except.ok res) :
    res.method = "adjusted_average" ∨ res.method = "no_data"
    ∨ ∃ fs : List String,
        res.method = "regression (" ++ String.intercalate ", " fs ++ ")" := by
  rcases calculate_ok_shape ora cache cy db y mk md mi t c s res h with
    ⟨fs, pp, rm, hres⟩ | hres
  · exact Or.inr (Or.inr ⟨fs, by rw [hres]; rfl⟩)
  · rw [hres]
    rcases fallback_method_cases cy db y mk md mi t c s with hm | hm
    · exact Or.inl hm
    · exact Or.inr (Or.inl hm)

/-- Witness for C7: the empty-store no-feature request returns the
no-data envelope, whose label is among the three. -/
theorem C7_method_labels_witness :
    noDataResult.method = "adjusted_average" ∨ noDataResult.method = "no_data"
    ∨ ∃ fs : List String,
        noDataResult.method = "regression (" ++ String.intercalate ", " fs ++ ")" :=
  C7_method_labels oraNone cacheEmpty 2025 [] 2015 "Toyota" "Camry"
    none none none none noDataResult rfl

end VinAudit
